import Mathlib

/- Shallow embedding of the resegoAI backend server: an Express application that
orchestrates an arXiv paper search, per-paper OpenRouter completion calls, a
report-synthesis completion call and a Supabase insert.  Each HTTP handler is
modelled as a pure function from the request data and an environment of
external-collaborator behaviours (search provider, completion provider,
persistence store) to the HTTP response paired with the trace of upstream calls
the handler issues.  An `Except String` result of an external call models a
resolved response (`ok`) versus a rejected promise / thrown error (`error`);
an `Option String` completion content models the optionally-present
`choices[0]?.message?.content` field. -/

/-- A paper parsed from an arXiv entry (interface Paper). -/
structure Paper where
  title : String
  authors : List String
  abstract : String
  link : String
  deriving DecidableEq, Repr

/-- One per-paper analysis result (interface PaperAnalysis). -/
structure PaperAnalysis where
  paper : Paper
  analysis : String
  deriving DecidableEq, Repr

/-- The authenticated user attached to the request context by the auth
middleware; the handlers only read its `id`. -/
structure User where
  id : String
  deriving DecidableEq, Repr

/-- Row inserted into the `reports` relation by /api/generate-report:
`{ user_id: user.id, title: query, content: finalReport }`. -/
structure ReportRow where
  user_id : String
  title : String
  content : String
  deriving DecidableEq, Repr

/-- Row inserted into the `reports` relation by /api/save-search:
`{ user_id, title: query, content: consolidatedSummary, papers, type: 'search',
created_at }`.  Body fields may be absent in the request, hence `Option`. -/
structure SearchRow where
  user_id : String
  title : Option String
  content : Option String
  papers : Option (List Paper)
  type : String
  created_at : String
  deriving DecidableEq, Repr

/-- Record echoed back by the store after `.insert(...).select().single()`. -/
structure StoredRecord where
  id : Nat
  deriving DecidableEq, Repr

/-- Typed shape of the structured refinement suggestion that the
/api/suggest-prompt prompt instructs the completion provider to emit as literal
JSON text (refinedQuery, suggestedElements, questionVariations,
relatedConcepts). -/
structure Suggestions where
  refinedQuery : Option String
  suggestedElements : List (String × List String)
  questionVariations : List (String × String)
  relatedConcepts : List String
  deriving DecidableEq, Repr

/-- One upstream request issued by a handler: an arXiv search, a completion
request (identified by its prompt), or a store insert (identified by the
inserted row). -/
inductive UpstreamCall where
  | arxivSearch (query : String)
  | completion (prompt : String)
  | insertReport (row : ReportRow)
  | insertSearch (row : SearchRow)
  deriving DecidableEq, Repr

/-- JSON body of an HTTP response sent by one of the handlers. -/
inductive RespBody where
  | error (msg : String)
  | searchOk (papers : List Paper) (summaries : List String)
      (consolidatedSummary : String)
  | reportOk (report : String) (papers : List PaperAnalysis)
      (savedReport : StoredRecord)
  | suggestOk (suggestions : Suggestions) (researchTags : List String)
  | saveSearchOk (savedSearch : Option StoredRecord) (message : String)
  deriving DecidableEq, Repr

/-- An HTTP response: status code plus JSON body (`res.status(...).json(...)`;
a bare `res.json(...)` is status 200). -/
structure HttpResponse where
  status : Nat
  body : RespBody
  deriving DecidableEq, Repr

/-- JavaScript truthiness of a possibly-absent string (the `!query` checks in
the handlers): an absent field and the empty string are both falsy. -/
def jsTruthy : Option String → Bool
  | none => false
  | some s => s ≠ ""

/-- JavaScript `a || b` on a possibly-absent string, as used for the
completion-content fallbacks: `a` absent or empty yields `b`. -/
def jsOr (o : Option String) (d : String) : String :=
  match o with
  | none => d
  | some s => if s = "" then d else s

/-- JavaScript string interpolation of a possibly-absent value: an absent value
prints as the literal text "undefined". -/
def jsShow (o : Option String) : String :=
  match o with
  | none => "undefined"
  | some s => s

/-- Auxiliary loop of `jsSplit`: accumulates the current (reversed) piece. -/
def jsSplitAux (sep : Char) : List Char → List Char → List String
  | [], acc => [String.mk acc.reverse]
  | c :: cs, acc =>
    if c = sep then String.mk acc.reverse :: jsSplitAux sep cs []
    else jsSplitAux sep cs (c :: acc)

/-- JavaScript `String.prototype.split` with a one-character separator, as in
`content.split(',')`: splitting the empty string yields `[""]`. -/
def jsSplit (s : String) (sep : Char) : List String :=
  jsSplitAux sep s.data []

/-- JavaScript `String.prototype.trim`: drop leading and trailing whitespace. -/
def jsTrim (s : String) : String :=
  String.mk (((s.data.dropWhile Char.isWhitespace).reverse.dropWhile
    Char.isWhitespace).reverse)

/-- JavaScript `String.prototype.substring(0, n)`. -/
def jsSubstringTo (s : String) (n : Nat) : String :=
  String.mk (s.data.take n)

/-- The per-paper summary prompt sent by the /api/search-papers handler. -/
def summaryPrompt (paper : Paper) : String :=
  "Provide a very brief 2-3 bullet point summary of this research paper (max 50 words total):\n"
  ++ "              Title: " ++ paper.title ++ "\n"
  ++ "              Abstract: " ++ jsSubstringTo paper.abstract 1000

/-- The consolidated-summary prompt sent by the /api/search-papers handler. -/
def consolidatedPrompt (papers : List Paper) : String :=
  "Synthesize a cohesive overview of these research papers (max 100 words). Focus on common themes, key findings, and broader implications. Don\x27t list papers individually.\n\n"
  ++ "          Papers:\n"
  ++ "          "
  ++ String.intercalate "\n\n" (papers.map fun paper => paper.title ++ "\n" ++ paper.abstract)

/-- The per-paper analysis prompt sent in Step 2 of /api/generate-report. -/
def analysisPrompt (paper : Paper) : String :=
  "Analyze this research paper and provide the following details in a structured format:\n"
  ++ "            - Research question\n"
  ++ "            - Study methodology\n"
  ++ "            - Key findings\n"
  ++ "            - Limitations\n"
  ++ "            - Conclusion\n\n"
  ++ "            Title: " ++ paper.title ++ "\n"
  ++ "            Abstract: " ++ paper.abstract

/-- One paper block of the synthesis prompt (the `paperAnalyses.map` template
inside `reportPrompt`). -/
def reportPromptPaperBlock (pa : PaperAnalysis) : String :=
  "Title: **" ++ pa.paper.title ++ "**  \n"
  ++ "   Authors: " ++ String.intercalate ", " pa.paper.authors ++ "  \n"
  ++ "   Key Findings: " ++ pa.analysis ++ "  \n  "

/-- The fixed report-synthesis template of Step 3 of /api/generate-report, as a
function of the query and the block of embedded paper analyses
(`paperAnalyses.map(...).join('\n')`). -/
def reportTemplate (query : String) (papersBlock : String) : String :=
  "Generate a comprehensive, **evidence-based** research report about **\"" ++ query ++ "\"** following this **structured academic format**:\n\n"
  ++ "## <span style=\"color: #8B5CF6; font-size: 2.25rem; font-weight: bold;\">" ++ query ++ "</span>\n\n"
  ++ "---\n\n"
  ++ "### 📑 **Abstract**\n"
  ++ "**Summarize** the key aspects of the research:\n"
  ++ "- **Objective**: What is the study trying to achieve?\n"
  ++ "- **Methodology Overview**: What methods were used?\n"
  ++ "- **Key Findings Summary**: What are the main results?\n"
  ++ "- **Significance**: Why is this research important?\n\n"
  ++ "---\n\n"
  ++ "### 🎯 **Introduction & Research Objectives**\n"
  ++ "Provide background information to **contextualize the research**:\n"
  ++ "- **Research Context**: Explain why this topic is important.\n"
  ++ "- **Problem Statement**: What problem does this research address?\n"
  ++ "- **Research Questions**: List specific research questions being explored.\n"
  ++ "- **Scope and Limitations**: Define the study\x27s boundaries.\n\n"
  ++ "---\n\n"
  ++ "### 📚 **Literature Review**\n"
  ++ "Conduct a **comparative analysis** of existing research:\n"
  ++ "- **Current State of Research**: Summarize key studies and trends.\n"
  ++ "- **Theoretical Framework**: What models or theories apply?\n"
  ++ "- **Research Gaps Identified**: What gaps exist in the current literature?\n"
  ++ "- **Key Concepts Defined**: Define critical terms for clarity.\n\n"
  ++ "⚡ **(Ensure findings are compared against the papers provided in the dataset.)**\n\n"
  ++ "---\n\n"
  ++ "### 🔬 **Methodology**\n"
  ++ "Break down the research methods **step-by-step**:\n"
  ++ "- **Research Approach**: Is this qualitative, quantitative, or mixed?\n"
  ++ "- **Data Collection Methods**: What data sources were used?\n"
  ++ "- **Analysis Techniques**: What statistical or analytical methods were applied?\n"
  ++ "- **Tools & Frameworks Used**: Specify technologies, software, or algorithms.\n\n"
  ++ "---\n\n"
  ++ "### 📊 **Results & Analysis**\n"
  ++ "Organize key results into a **structured table** for clarity:\n\n"
  ++ "| **Category** | **Findings** | **Evidence** | **Impact** |\n"
  ++ "|-------------|-------------|-------------|-------------|\n"
  ++ "| [area] | [result] | [data] | [significance] |\n\n"
  ++ "- **Provide statistical results with proper benchmarks.**\n"
  ++ "- **Include citations from referenced papers where possible.**\n"
  ++ "- **Highlight strengths and weaknesses of the findings.**\n\n"
  ++ "---\n\n"
  ++ "### 💡 **Discussion**\n"
  ++ "Critically evaluate the findings:\n"
  ++ "- **Interpretation of Findings**: What do the results indicate?\n"
  ++ "- **Comparison with Existing Research**: How does this compare with past studies?\n"
  ++ "- **Practical Implications**: What are the real-world applications?\n"
  ++ "- **Limitations Encountered**: Mention any potential biases or errors.\n\n"
  ++ "---\n\n"
  ++ "### 🎯 **Conclusions**\n"
  ++ "Summarize **key takeaways** from the research:\n"
  ++ "- **Main Contributions**: What new insights does this study offer?\n"
  ++ "- **Key Insights**: What should researchers or practitioners take away?\n"
  ++ "- **Future Research Directions**: What questions remain unanswered?\n"
  ++ "- **Recommendations**: Suggest next steps for researchers.\n\n"
  ++ "---\n\n"
  ++ "### 📚 **References**\n"
  ++ "Provide a **properly formatted reference list**:\n"
  ++ "- **Cite relevant papers** (including those provided in the dataset).\n"
  ++ "- **Highlight key studies referenced.**\n"
  ++ "- **Ensure citations follow an academic format (APA/Harvard/IEEE).**\n\n"
  ++ "---\n\n"
  ++ "### 📌 **Analysis Guidelines for Better Research Output**\n"
  ++ "1. **Use an Academic Writing Style** (avoid vague or conversational language).  \n"
  ++ "2. **Support Claims with Evidence** (always cite data or sources).  \n"
  ++ "3. **Include Data Tables & Graphs** (where applicable).  \n"
  ++ "4. **Use Comparative Analysis** (compare findings with multiple papers).  \n"
  ++ "5. **Highlight Performance Metrics & Benchmarks** (where relevant).  \n"
  ++ "6. **Ensure Quantitative Evidence is Prioritized** (numbers, percentages, charts).  \n\n"
  ++ "📌 **Base your analysis on these papers and their findings:**\n"
  ++ papersBlock
  ++ "\n\n🚀 **Ensure the AI processes findings step-by-step and focuses on data-driven insights rather than vague generalizations.**"

/-- The full synthesis prompt of Step 3: the template with the title, authors
and analysis of every paper embedded. -/
def reportPrompt (query : String) (analyses : List PaperAnalysis) : String :=
  reportTemplate query
    (String.intercalate "\n" (analyses.map reportPromptPaperBlock))

/-- External collaborator behaviours seen by the /api/generate-report handler:
the arXiv search (keyed by query), the per-paper analysis and the synthesis
completion calls (keyed by prompt), and the store insert (keyed by the row). -/
structure ReportEnv where
  arxiv : String → Except String (List Paper)
  analyze : String → Except String (Option String)
  synth : String → Except String (Option String)
  insertReport : ReportRow → Except String (Option StoredRecord)

/-- Step 2 of /api/generate-report: the `Promise.all` join over the per-paper
analysis calls.  Every call is dispatched; if any one rejects, the join rejects
with that rejection and no analysis list is produced (all-succeed-or-abort,
no partial-results path). -/
def joinAnalyses (env : ReportEnv) : List Paper → Except String (List PaperAnalysis)
  | [] => .ok []
  | p :: ps =>
    match env.analyze (analysisPrompt p) with
    | .error e => .error e
    | .ok o =>
      match joinAnalyses env ps with
      | .error e => .error e
      | .ok rest => .ok (⟨p, jsOr o "Analysis failed"⟩ :: rest)

/-- The /api/generate-report handler.  Returns the HTTP response and the trace
of upstream calls: the arXiv fetch; all per-paper analysis calls (dispatched
together by `Promise.all` before the join resolves); the synthesis call; the
store insert.  Failure routing follows the nested try/catch blocks of the
source: a Step-1 failure yields the fixed arXiv message; a rejection of the
analysis join falls through to the outermost catch (500 with its message);
any Step-3 failure (transport error, missing choices, empty content) is caught
by the Step-3 catch (500, "Failed to generate report content"); the Step-4
block checks the authenticated user before the insert and maps a store
rejection to 500 with a save-specific message. -/
def generateReport (query : Option String) (user : Option User)
    (env : ReportEnv) : HttpResponse × List UpstreamCall :=
  if jsTruthy query = false then
    (⟨400, .error "Query is required"⟩, [])
  else
    let q := jsShow query
    match env.arxiv q with
    | .error _ => (⟨500, .error "Failed to fetch papers from arXiv"⟩, [.arxivSearch q])
    | .ok papers =>
      let tr1 := UpstreamCall.arxivSearch q ::
        papers.map (fun p => UpstreamCall.completion (analysisPrompt p))
      match joinAnalyses env papers with
      | .error e => (⟨500, .error e⟩, tr1)
      | .ok paperAnalyses =>
        let prompt := reportPrompt q paperAnalyses
        let tr2 := tr1 ++ [UpstreamCall.completion prompt]
        match env.synth prompt with
        | .error _ => (⟨500, .error "Failed to generate report content"⟩, tr2)
        | .ok content =>
          match content with
          | none => (⟨500, .error "Failed to generate report content"⟩, tr2)
          | some finalReport =>
            if finalReport = "" then
              (⟨500, .error "Failed to generate report content"⟩, tr2)
            else
              match user with
              | none => (⟨500, .error "No authenticated user found"⟩, tr2)
              | some u =>
                if u.id = "" then
                  (⟨500, .error "No authenticated user found"⟩, tr2)
                else
                  let row : ReportRow := ⟨u.id, q, finalReport⟩
                  let tr3 := tr2 ++ [UpstreamCall.insertReport row]
                  match env.insertReport row with
                  | .error m =>
                    (⟨500, .error ("Failed to save report: " ++ m)⟩, tr3)
                  | .ok none =>
                    (⟨500, .error "No report record returned after save"⟩, tr3)
                  | .ok (some reportRecord) =>
                    (⟨200, .reportOk finalReport paperAnalyses reportRecord⟩, tr3)

/-- External collaborator behaviours seen by the /api/search-papers handler. -/
structure SearchEnv where
  arxiv : String → Except String (List Paper)
  summarize : String → Except String (Option String)
  consolidate : String → Except String (Option String)

/-- The /api/search-papers handler (searchPapers in the source).  A falsy query
yields 400 before any upstream call.  A failed arXiv fetch yields 500 with the
thrown message.  Zero parsed entries yield an early 200 with empty papers,
empty summaries and an empty consolidated summary.  Otherwise every per-paper
summary call is dispatched; each call has its own catch that degrades a
rejection to "Summary generation failed" and missing content to
"Summary not available"; then the consolidated-summary call runs (a rejection
there reaches the outer catch and yields 500). -/
def searchPapers (query : Option String) (env : SearchEnv) :
    HttpResponse × List UpstreamCall :=
  if jsTruthy query = false then
    (⟨400, .error "Query is required"⟩, [])
  else
    let q := jsShow query
    match env.arxiv q with
    | .error m => (⟨500, .error m⟩, [.arxivSearch q])
    | .ok papers =>
      if papers.length = 0 then
        (⟨200, .searchOk [] [] ""⟩, [.arxivSearch q])
      else
        let summaries := papers.map fun p =>
          match env.summarize (summaryPrompt p) with
          | .error _ => "Summary generation failed"
          | .ok o => jsOr o "Summary not available"
        let tr := UpstreamCall.arxivSearch q ::
          papers.map (fun p => UpstreamCall.completion (summaryPrompt p))
        let cp := consolidatedPrompt papers
        match env.consolidate cp with
        | .error m => (⟨500, .error m⟩, tr ++ [UpstreamCall.completion cp])
        | .ok o =>
          (⟨200, .searchOk papers summaries (jsOr o "Overview not available")⟩,
            tr ++ [UpstreamCall.completion cp])

/-- The refinement-suggestion prompt sent by the /api/suggest-prompt handler.
An absent initialQuery is interpolated as the literal text "undefined". -/
def suggestionPrompt (initialQuery : Option String) : String :=
  "As a research assistant, analyze this query and suggest improvements:\n"
  ++ "          \n"
  ++ "          Original query: \"" ++ jsShow initialQuery ++ "\"\n\n"
  ++ "          Provide response in this JSON format:\n"
  ++ "          \x7b\n"
  ++ "            \"refinedQuery\": \"improved version of the query\",\n"
  ++ "            \"suggestedElements\": \x7b\n"
  ++ "              \"specificity\": [\n"
  ++ "                \"specific aspect 1\",\n"
  ++ "                \"specific aspect 2\"\n"
  ++ "              ],\n"
  ++ "              \"researchType\": [\n"
  ++ "                \"methodology 1\",\n"
  ++ "                \"methodology 2\"\n"
  ++ "              ],\n"
  ++ "              \"practicalApplication\": [\n"
  ++ "                \"application 1\",\n"
  ++ "                \"application 2\"\n"
  ++ "              ]\n"
  ++ "            \x7d,\n"
  ++ "            \"questionVariations\": [\n"
  ++ "              \x7b\n"
  ++ "                \"question\": \"more specific version of the query\",\n"
  ++ "                \"explanation\": \"why this version is more effective\"\n"
  ++ "              \x7d,\n"
  ++ "              \x7b\n"
  ++ "                \"question\": \"alternative approach to the query\",\n"
  ++ "                \"explanation\": \"how this approach differs\"\n"
  ++ "              \x7d\n"
  ++ "            ],\n"
  ++ "            \"relatedConcepts\": [\n"
  ++ "              \"technical term 1\",\n"
  ++ "              \"technical term 2\"\n"
  ++ "            ]\n"
  ++ "          \x7d\n\n"
  ++ "          Guidelines:\n"
  ++ "          1. Make suggestions more specific and measurable\n"
  ++ "          2. Include relevant technical terms\n"
  ++ "          3. Consider different research approaches\n"
  ++ "          4. Focus on practical applications\n"
  ++ "          5. Break down complex queries into specific elements"

/-- The tag-generation prompt built by getResearchTags. -/
def tagPrompt (query : Option String) : String :=
  "Generate 3-4 relevant research type tags for this query: \"" ++ jsShow query ++ "\"\n"
  ++ "          Return only the tags separated by commas, like: \"Specificity, Research type, Practical application\""

/-- External collaborator behaviours seen by the /api/suggest-prompt handler:
the two completion calls (keyed by prompt) plus the host JSON.parse primitive,
modelled as a parse function returning `none` exactly when JSON.parse throws
on the given text. -/
structure SuggestEnv where
  complete : String → Except String (Option String)
  parse : String → Option Suggestions
  tagComplete : String → Except String (Option String)

/-- The getResearchTags helper.  Its single try/catch degrades every failure to
an empty tag list: a rejected fetch or JSON failure (`error`), and a present
response whose content field is absent (`ok none`, where `content.split`
throws a TypeError that the catch turns into `[]`).  A usable content string
is split on commas and each tag trimmed. -/
def getResearchTags (query : Option String) (env : SuggestEnv) :
    List String × List UpstreamCall :=
  let prompt := tagPrompt query
  match env.tagComplete prompt with
  | .error _ => ([], [UpstreamCall.completion prompt])
  | .ok none => ([], [UpstreamCall.completion prompt])
  | .ok (some content) =>
    ((jsSplit content ',').map jsTrim, [UpstreamCall.completion prompt])

/-- The /api/suggest-prompt handler.  It performs no validation of
initialQuery: the completion request is issued unconditionally.  The returned
content (or the literal "\x7b\x7d" when the content is absent or empty) is fed
to JSON.parse; a parse failure is a thrown SyntaxError that the handler routes
to `next(error)`, hence a 500 response (its message stands in for the
SyntaxError text).  On success the research tags are attached to the parsed
suggestions and the pair is returned with 200. -/
def suggestPromptHandler (initialQuery : Option String) (env : SuggestEnv) :
    HttpResponse × List UpstreamCall :=
  let prompt := suggestionPrompt initialQuery
  match env.complete prompt with
  | .error m => (⟨500, .error m⟩, [UpstreamCall.completion prompt])
  | .ok content =>
    match env.parse (jsOr content "\x7b\x7d") with
    | none =>
      (⟨500, .error "Unexpected token in JSON"⟩,
        [UpstreamCall.completion prompt])
    | some suggestions =>
      let tagsTr := getResearchTags initialQuery env
      (⟨200, .suggestOk suggestions tagsTr.1⟩,
        UpstreamCall.completion prompt :: tagsTr.2)

/-- Request body of /api/save-search; every field may be absent. -/
structure SaveSearchBody where
  query : Option String
  papers : Option (List Paper)
  consolidatedSummary : Option String
  deriving DecidableEq, Repr

/-- External collaborator behaviour seen by the /api/save-search handler:
the store insert, plus the wall clock read by `new Date().toISOString()`. -/
structure SaveEnv where
  insertSearch : SearchRow → Except String (Option StoredRecord)
  now : String

/-- The /api/save-search handler.  It performs no validation of the body: the
only check before the insert is the authenticated-user check, whose failure is
thrown and caught (500, "No authenticated user found") before any store call.
A store rejection yields 500 with a save-specific message; otherwise the
echoed record (possibly null) is returned with 200. -/
def saveSearch (body : SaveSearchBody) (user : Option User) (env : SaveEnv) :
    HttpResponse × List UpstreamCall :=
  match user with
  | none => (⟨500, .error "No authenticated user found"⟩, [])
  | some u =>
    if u.id = "" then
      (⟨500, .error "No authenticated user found"⟩, [])
    else
      let row : SearchRow :=
        ⟨u.id, body.query, body.consolidatedSummary, body.papers, "search", env.now⟩
      match env.insertSearch row with
      | .error m =>
        (⟨500, .error ("Failed to save search: " ++ m)⟩,
          [UpstreamCall.insertSearch row])
      | .ok savedSearch =>
        (⟨200, .saveSearchOk savedSearch "Search saved successfully"⟩,
          [UpstreamCall.insertSearch row])

/- Concrete fixtures used to instantiate the theorems below on explicit
inputs. -/

def paperA : Paper := ⟨"A", ["X"], "B", "L"⟩

def paperC : Paper := ⟨"C", ["Y"], "D", "M"⟩

def userU : User := ⟨"user-1"⟩

def suggX : Suggestions := ⟨some "refined query", [], [], []⟩

def envC1 : ReportEnv :=
  ⟨fun _ => .ok [paperA, paperC],
   fun prompt => if prompt = analysisPrompt paperA
     then .error "completion provider down" else .ok (some "analysis text"),
   fun _ => .ok (some "report text"),
   fun _ => .ok (some ⟨1⟩)⟩

def envC4 : ReportEnv :=
  ⟨fun _ => .ok [paperA],
   fun _ => .ok (some "S"),
   fun _ => .ok (some "SYNTH"),
   fun _ => .ok (some ⟨7⟩)⟩

def envC7 : ReportEnv :=
  ⟨fun _ => .ok [paperA],
   fun _ => .ok (some "S"),
   fun _ => .ok (some "SYNTH"),
   fun _ => .error "duplicate key value"⟩

def envC10 : ReportEnv :=
  ⟨fun _ => .ok [],
   fun _ => .ok (some "S"),
   fun _ => .ok (some "SYNTH"),
   fun _ => .ok (some ⟨9⟩)⟩

def envC5 : SearchEnv :=
  ⟨fun _ => .ok [], fun _ => .ok (some "sum"), fun _ => .ok (some "overview")⟩

def envC3 : SuggestEnv :=
  ⟨fun _ => .ok (some "payload"), fun _ => some suggX,
   fun _ => .ok (some "T1, T2")⟩

def envC6 : SuggestEnv :=
  ⟨fun _ => .ok (some "not json"), fun _ => none, fun _ => .ok (some "T1, T2")⟩

def envC8 : SuggestEnv :=
  ⟨fun _ => .ok (some "payload"), fun _ => some suggX,
   fun _ => .ok (some "Specificity, Research type, Practical application")⟩

def envC9 : SuggestEnv :=
  ⟨fun _ => .ok (some "payload"), fun _ => some suggX,
   fun _ => .error "tag call failed"⟩

def bodyW : SaveSearchBody := ⟨some "quantum computing", some [paperA], some "summary"⟩

def envSave : SaveEnv := ⟨fun _ => .ok (some ⟨3⟩), "2026-10-12T00:00:00.000Z"⟩

/- Helper lemmas shared by several claim theorems. -/

/-- If some dispatched per-paper analysis call rejects, the Promise.all join
rejects. -/
theorem joinAnalyses_error_of_mem (env : ReportEnv) (papers : List Paper)
    (p : Paper) (hp : p ∈ papers) (e : String)
    (he : env.analyze (analysisPrompt p) = .error e) :
    ∃ e2, joinAnalyses env papers = .error e2 := by
  induction papers with
  | nil => cases hp
  | cons q ps ih =>
    cases hp with
    | head => exact ⟨e, by simp [joinAnalyses, he]⟩
    | tail _ hmem =>
      obtain ⟨e2, h2⟩ := ih hmem
      cases h3 : env.analyze (analysisPrompt q) with
      | error e3 => exact ⟨e3, by simp [joinAnalyses, h3]⟩
      | ok o => exact ⟨e2, by simp [joinAnalyses, h3, h2]⟩

/-- C1: if the completion provider fails for exactly one of the N concurrent
per-paper analysis calls of /api/generate-report, the whole request fails with
status 500 and an error body — the per-paper analysis step is an
all-succeed-or-abort join, with no partial-report response. -/
theorem generate_report_single_analysis_failure_aborts
    (q : String) (hq : q ≠ "") (user : Option User) (env : ReportEnv)
    (papers : List Paper) (harx : env.arxiv q = .ok papers)
    (hone : (papers.filter fun p =>
      !(env.analyze (analysisPrompt p)).isOk).length = 1) :
    (generateReport (some q) user env).1.status = 500 ∧
      ∃ m, (generateReport (some q) user env).1.body = .error m := by
  have hne : papers.filter (fun p => !(env.analyze (analysisPrompt p)).isOk) ≠ [] := by
    intro h
    rw [h] at hone
    simp at hone
  obtain ⟨p, hpmem⟩ := List.exists_mem_of_ne_nil _ hne
  have hp := List.mem_filter.mp hpmem
  obtain ⟨e, he⟩ : ∃ e, env.analyze (analysisPrompt p) = .error e := by
    cases h : env.analyze (analysisPrompt p) with
    | error e => exact ⟨e, rfl⟩
    | ok o =>
      rw [h] at hp
      simp [Except.isOk, Except.toBool] at hp
  obtain ⟨e2, hjoin⟩ := joinAnalyses_error_of_mem env papers p hp.1 e he
  have hcomp : generateReport (some q) user env
      = (⟨500, .error e2⟩, UpstreamCall.arxivSearch q ::
          papers.map fun p => UpstreamCall.completion (analysisPrompt p)) := by
    simp [generateReport, jsTruthy, hq, jsShow, harx, hjoin]
  exact ⟨by rw [hcomp], e2, by rw [hcomp]⟩

set_option maxRecDepth 8192 in
/-- Instantiation of the C1 theorem: two fetched papers, the analysis call for
the first one rejects, the request fails with 500 and an error body. -/
theorem generate_report_single_analysis_failure_aborts_witness :
    (generateReport (some "quantum computing") (some userU) envC1).1.status = 500 ∧
      ∃ m, (generateReport (some "quantum computing") (some userU) envC1).1.body
        = .error m :=
  generate_report_single_analysis_failure_aborts "quantum computing"
    (by decide) (some userU) envC1 [paperA, paperC] rfl (by decide)

/-- Any report-insert event of /api/generate-report carries the id of a truthy
authenticated user, the query as title and the synthesized content. -/
theorem generateReport_insert_row (query : Option String) (user : Option User)
    (env : ReportEnv) (row : ReportRow)
    (hrow : UpstreamCall.insertReport row ∈ (generateReport query user env).2) :
    ∃ u S, user = some u ∧ u.id ≠ "" ∧ row = ⟨u.id, jsShow query, S⟩ := by
  by_cases h1 : jsTruthy query = false
  · simp [generateReport, h1] at hrow
  · rcases h2 : env.arxiv (jsShow query) with m | papers
    · simp [generateReport, h1, h2] at hrow
    · rcases h3 : joinAnalyses env papers with e | analyses
      · simp [generateReport, h1, h2, h3] at hrow
      · rcases h4 : env.synth (reportPrompt (jsShow query) analyses) with m | content
        · simp [generateReport, h1, h2, h3, h4] at hrow
        · rcases content with _ | finalReport
          · simp [generateReport, h1, h2, h3, h4] at hrow
          · by_cases h5 : finalReport = ""
            · simp [generateReport, h1, h2, h3, h4, h5] at hrow
            · rcases user with _ | u
              · simp [generateReport, h1, h2, h3, h4, h5] at hrow
              · by_cases h6 : u.id = ""
                · simp [generateReport, h1, h2, h3, h4, h5, h6] at hrow
                · rcases h7 : env.insertReport ⟨u.id, jsShow query, finalReport⟩
                    with m | rec
                  · simp [generateReport, h1, h2, h3, h4, h5, h6, h7] at hrow
                    exact ⟨u, finalReport, rfl, h6, hrow⟩
                  · rcases rec with _ | r
                    · simp [generateReport, h1, h2, h3, h4, h5, h6, h7] at hrow
                      exact ⟨u, finalReport, rfl, h6, hrow⟩
                    · simp [generateReport, h1, h2, h3, h4, h5, h6, h7] at hrow
                      exact ⟨u, finalReport, rfl, h6, hrow⟩

/-- C2: every record inserted by /api/generate-report or /api/save-search
carries the owner identity resolved by the authentication gate (user_id equals
the attached user id), and when no authenticated user with a truthy id is
attached,NO store call is made and the persistence attempt is rejected
(fail-closed, fail-fast). -/
theorem persistence_carries_owner_and_fails_closed
    (query : Option String) (user : Option User) (envR : ReportEnv)
    (body : SaveSearchBody) (envS : SaveEnv) :
    (∀ row, UpstreamCall.insertReport row ∈ (generateReport query user envR).2 →
      ∃ u S, user = some u ∧ u.id ≠ "" ∧ row = ⟨u.id, jsShow query, S⟩) ∧
    (∀ row, UpstreamCall.insertSearch row ∈ (saveSearch body user envS).2 →
      ∃ u, user = some u ∧ u.id ≠ "" ∧ row.user_id = u.id) ∧
    (user = none ∨ user = some (User.mk "") →
      (∀ row, UpstreamCall.insertReport row ∉ (generateReport query user envR).2) ∧
      (∀ row, UpstreamCall.insertSearch row ∉ (saveSearch body user envS).2) ∧
      saveSearch body user envS
        = (⟨500, .error "No authenticated user found"⟩, [])) := by
  refine ⟨fun row hrow => generateReport_insert_row query user envR row hrow, ?_, ?_⟩
  · intro row hrow
    rcases user with _ | u
    · simp [saveSearch] at hrow
    · by_cases hu : u.id = ""
      · simp [saveSearch, hu] at hrow
      · rcases h : envS.insertSearch
            ⟨u.id, body.query, body.consolidatedSummary, body.papers, "search",
              envS.now⟩ with m | rec
        · simp [saveSearch, hu, h] at hrow
          exact ⟨u, rfl, hu, by simp [hrow]⟩
        · simp [saveSearch, hu, h] at hrow
          exact ⟨u, rfl, hu, by simp [hrow]⟩
  · intro huser
    refine ⟨?_, ?_, ?_⟩
    · intro row hrow
      obtain ⟨u, S, hu, hne, _⟩ := generateReport_insert_row query user envR row hrow
      rcases huser with h | h
      · rw [h] at hu
        cases hu
      · rw [h] at hu
        injection hu with hu2
        rw [← hu2] at hne
        exact hne rfl
    · intro row hrow
      rcases huser with h | h <;> subst h <;> simp [saveSearch] at hrow
    · rcases huser with h | h <;> subst h <;> simp [saveSearch]

/-- Instantiation of the C2 theorem: with no user attached, /api/save-search
rejects with 500 and an empty upstream trace (no store call). -/
theorem persistence_carries_owner_and_fails_closed_witness :
    saveSearch bodyW none envSave
      = (⟨500, .error "No authenticated user found"⟩, []) :=
  ((persistence_carries_owner_and_fails_closed (some "quantum computing") none
    envC4 bodyW envSave).2.2 (Or.inl rfl)).2.2

/-- C3 counterexample: with an absent initialQuery, /api/suggest-prompt does
not return 400 and does issue upstream completion-provider requests — the
handler performs no query validation.  On this concrete provider behaviour it
returns 200 after two completion calls. -/
theorem suggest_prompt_no_query_validation :
    (suggestPromptHandler none envC3).1.status = 200 ∧
      (suggestPromptHandler none envC3).2.length = 2 :=
  ⟨rfl, rfl⟩

/-- C3 amended: an empty or absent query yields 400 with no upstream call on
/api/search-papers and /api/generate-report only; /api/suggest-prompt never
returns 400 and always issues its completion request (no validation of
initialQuery), and /api/save-search never returns 400 (no validation of its
body). -/
theorem empty_query_validation_amended :
    (∀ (env : SearchEnv) (q : Option String), jsTruthy q = false →
      searchPapers q env = (⟨400, .error "Query is required"⟩, [])) ∧
    (∀ (env : ReportEnv) (user : Option User) (q : Option String),
      jsTruthy q = false →
      generateReport q user env = (⟨400, .error "Query is required"⟩, [])) ∧
    (∀ (env : SuggestEnv) (iq : Option String),
      (suggestPromptHandler iq env).1.status ≠ 400 ∧
      (suggestPromptHandler iq env).2 ≠ []) ∧
    (∀ (env : SaveEnv) (b : SaveSearchBody) (user : Option User),
      (saveSearch b user env).1.status ≠ 400) := by
  refine ⟨?_, ?_, ?_, ?_⟩
  · intro env q h
    simp [searchPapers, h]
  · intro env user q h
    simp [generateReport, h]
  · intro env iq
    rcases h : env.complete (suggestionPrompt iq) with m | content
    · simp [suggestPromptHandler, h]
    · rcases h2 : env.parse (jsOr content "\x7b\x7d") with _ | sugg
      · simp [suggestPromptHandler, h, h2]
      · simp [suggestPromptHandler, h, h2]
  · intro env b user
    rcases user with _ | u
    · simp [saveSearch]
    · by_cases hu : u.id = ""
      · simp [saveSearch, hu]
      · rcases h : env.insertSearch
            ⟨u.id, b.query, b.consolidatedSummary, b.papers, "search", env.now⟩
          with m | rec
        · simp [saveSearch, hu, h]
        · simp [saveSearch, hu, h]

/-- Instantiation of the amended C3 theorem: /api/search-papers with an absent
query returns 400 with an empty upstream trace. -/
theorem empty_query_validation_amended_witness :
    searchPapers none envC5 = (⟨400, .error "Query is required"⟩, []) :=
  empty_query_validation_amended.1 envC5 none rfl

/-- C4: on a successful pipeline run with query q, one fetched paper, analysis
text a and synthesis completion S, the persisted record is exactly
`{user_id := u.id, title := q, content := S}` — title equals the query,
content equals the synthesis completion text, owner equals the authenticated
user id — and the response is 200 with the saved record. -/
theorem generate_report_roundtrip
    (q S a : String) (hq : q ≠ "") (hS : S ≠ "") (ha : a ≠ "")
    (u : User) (hu : u.id ≠ "") (p : Paper) (rec : StoredRecord)
    (env : ReportEnv)
    (harx : env.arxiv q = .ok [p])
    (han : env.analyze (analysisPrompt p) = .ok (some a))
    (hsyn : env.synth (reportPrompt q [⟨p, a⟩]) = .ok (some S))
    (hins : env.insertReport ⟨u.id, q, S⟩ = .ok (some rec)) :
    generateReport (some q) (some u) env =
      (⟨200, .reportOk S [⟨p, a⟩] rec⟩,
        [UpstreamCall.arxivSearch q,
         UpstreamCall.completion (analysisPrompt p),
         UpstreamCall.completion (reportPrompt q [⟨p, a⟩]),
         UpstreamCall.insertReport ⟨u.id, q, S⟩]) := by
  have hjoin : joinAnalyses env [p] = .ok [⟨p, a⟩] := by
    simp [joinAnalyses, han, jsOr, ha]
  simp [generateReport, jsTruthy, jsShow, hq, harx, hjoin, hsyn, hS, hu, hins]

/-- Instantiation of the C4 theorem at query "quantum computing", the paper
`{title: "A", authors: ["X"], abstract: "B", link: "L"}`, analysis "S" and
synthesis completion "SYNTH". -/
theorem generate_report_roundtrip_witness :
    generateReport (some "quantum computing") (some userU) envC4 =
      (⟨200, .reportOk "SYNTH" [⟨paperA, "S"⟩] ⟨7⟩⟩,
        [UpstreamCall.arxivSearch "quantum computing",
         UpstreamCall.completion (analysisPrompt paperA),
         UpstreamCall.completion (reportPrompt "quantum computing" [⟨paperA, "S"⟩]),
         UpstreamCall.insertReport ⟨userU.id, "quantum computing", "SYNTH"⟩]) :=
  generate_report_roundtrip "quantum computing" "SYNTH" "S" (by decide)
    (by decide) (by decide) userU (by decide) paperA ⟨7⟩ envC4 rfl rfl rfl rfl

/-- C5: when the search provider responds successfully with zero entries,
/api/search-papers returns 200 with exactly empty papers, empty summaries and
an empty consolidated summary, and issues no completion call. -/
theorem search_papers_zero_entries (q : String) (hq : q ≠ "") (env : SearchEnv)
    (h : env.arxiv q = .ok []) :
    searchPapers (some q) env =
      (⟨200, .searchOk [] [] ""⟩, [UpstreamCall.arxivSearch q]) := by
  simp [searchPapers, jsTruthy, jsShow, hq, h]

/-- Instantiation of the C5 theorem at query "quantum computing". -/
theorem search_papers_zero_entries_witness :
    searchPapers (some "quantum computing") envC5 =
      (⟨200, .searchOk [] [] ""⟩,
        [UpstreamCall.arxivSearch "quantum computing"]) :=
  search_papers_zero_entries "quantum computing" (by decide) envC5 rfl

/-- C6: when the refinement completion returns a non-empty text on which the
structured (JSON) parse fails, /api/suggest-prompt fails with a 500 error
response — an all-or-nothing parse with no partial recovery of the
suggestion. -/
theorem suggest_prompt_parse_failure_aborts (iq : Option String)
    (env : SuggestEnv) (c : String)
    (hc : env.complete (suggestionPrompt iq) = .ok (some c)) (hne : c ≠ "")
    (hp : env.parse c = none) :
    suggestPromptHandler iq env =
      (⟨500, .error "Unexpected token in JSON"⟩,
        [UpstreamCall.completion (suggestionPrompt iq)]) := by
  simp [suggestPromptHandler, hc, jsOr, hne, hp]

/-- Instantiation of the C6 theorem: completion text "not json" fails to parse
and the request fails with 500. -/
theorem suggest_prompt_parse_failure_aborts_witness :
    suggestPromptHandler (some "quantum computing") envC6 =
      (⟨500, .error "Unexpected token in JSON"⟩,
        [UpstreamCall.completion (suggestionPrompt (some "quantum computing"))]) :=
  suggest_prompt_parse_failure_aborts (some "quantum computing") envC6
    "not json" rfl (by decide) rfl

/-- The save-failure message can never coincide with the fixed
generation-failure message, whatever the store said. -/
theorem save_message_ne_generation_message (m : String) :
    "Failed to save report: " ++ m ≠ "Failed to generate report content" := by
  intro h
  have h2 : "Failed to save report: ".data ++ m.data
      = "Failed to generate report content".data := by
    rw [← String.data_append, h]
  have e1 : "Failed to save report: ".data
      = ['F','a','i','l','e','d',' ','t','o',' ','s','a','v','e',' ',
         'r','e','p','o','r','t',':',' '] := rfl
  have e2 : "Failed to generate report content".data
      = ['F','a','i','l','e','d',' ','t','o',' ','g','e','n','e','r','a','t','e',
         ' ','r','e','p','o','r','t',' ','c','o','n','t','e','n','t'] := rfl
  rw [e1, e2] at h2
  simp at h2

/-- C7: when synthesis succeeds but the store rejects the insert,
/api/generate-report returns 500 with an error text that references the save
failure (and can never be the generation-failure text), and the upstream trace
shows every earlier step exactly once — no step is retried. -/
theorem generate_report_save_failure (q S m : String) (hq : q ≠ "")
    (hS : S ≠ "") (u : User) (hu : u.id ≠ "") (papers : List Paper)
    (analyses : List PaperAnalysis) (env : ReportEnv)
    (harx : env.arxiv q = .ok papers)
    (hjoin : joinAnalyses env papers = .ok analyses)
    (hsyn : env.synth (reportPrompt q analyses) = .ok (some S))
    (hins : env.insertReport ⟨u.id, q, S⟩ = .error m) :
    generateReport (some q) (some u) env =
      (⟨500, .error ("Failed to save report: " ++ m)⟩,
        UpstreamCall.arxivSearch q ::
          ((papers.map fun p => UpstreamCall.completion (analysisPrompt p)) ++
            [UpstreamCall.completion (reportPrompt q analyses),
             UpstreamCall.insertReport ⟨u.id, q, S⟩])) ∧
    "Failed to save report: " ++ m ≠ "Failed to generate report content" := by
  constructor
  · simp [generateReport, jsTruthy, jsShow, hq, harx, hjoin, hsyn, hS, hu, hins]
  · exact save_message_ne_generation_message m

/-- Instantiation of the C7 theorem: a store rejection with message
"duplicate key value" yields 500 with the save-failure text. -/
theorem generate_report_save_failure_witness :
    (generateReport (some "quantum computing") (some userU) envC7).1
      = ⟨500, .error ("Failed to save report: " ++ "duplicate key value")⟩ :=
  congrArg Prod.fst (generate_report_save_failure "quantum computing" "SYNTH"
    "duplicate key value" (by decide) (by decide) userU (by decide) [paperA]
    [⟨paperA, "S"⟩] envC7 rfl rfl rfl rfl).1

/-- C8: getResearchTags splits a successful completion output on commas, trims
each tag and preserves the order, and on the output
"Specificity, Research type, Practical application" it yields exactly
["Specificity", "Research type", "Practical application"]. -/
theorem research_tags_split_trim (q : Option String) (env : SuggestEnv)
    (s : String) (h : env.tagComplete (tagPrompt q) = .ok (some s)) :
    (getResearchTags q env).1 = (jsSplit s ',').map jsTrim ∧
    (getResearchTags q envC8).1
      = ["Specificity", "Research type", "Practical application"] := by
  constructor
  · simp [getResearchTags, h]
  · show (jsSplit "Specificity, Research type, Practical application" ',').map
        jsTrim = ["Specificity", "Research type", "Practical application"]
    decide

/-- Instantiation of the C8 theorem on the literal completion output of the
claim. -/
theorem research_tags_split_trim_witness :
    (getResearchTags (some "quantum computing") envC8).1
      = (jsSplit "Specificity, Research type, Practical application" ',').map
          jsTrim :=
  (research_tags_split_trim (some "quantum computing") envC8
    "Specificity, Research type, Practical application" rfl).1

/-- C9: a failing tag-generation completion call degrades to an empty tag list
while the request still succeeds with the parsed refinement (200), whereas a
failing primary refinement parse aborts the whole operation with 500 — an
asymmetric failure policy. -/
theorem suggest_tags_degrade_to_empty_asymmetric
    (iq : Option String) (env env2 : SuggestEnv) (c c2 e : String)
    (sugg : Suggestions)
    (hc : env.complete (suggestionPrompt iq) = .ok (some c)) (hcne : c ≠ "")
    (hp : env.parse c = some sugg)
    (htag : env.tagComplete (tagPrompt iq) = .error e)
    (hc2 : env2.complete (suggestionPrompt iq) = .ok (some c2)) (hc2ne : c2 ≠ "")
    (hp2 : env2.parse c2 = none) :
    (suggestPromptHandler iq env).1 = ⟨200, .suggestOk sugg []⟩ ∧
    (suggestPromptHandler iq env2).1.status = 500 := by
  constructor
  · simp [suggestPromptHandler, hc, jsOr, hcne, hp, getResearchTags, htag]
  · simp [suggestPromptHandler, hc2, jsOr, hc2ne, hp2]

/-- Instantiation of the C9 theorem: the tag call rejects, the response is
still 200 with an empty researchTags list. -/
theorem suggest_tags_degrade_to_empty_asymmetric_witness :
    (suggestPromptHandler (some "quantum computing") envC9).1
      = ⟨200, .suggestOk suggX []⟩ :=
  (suggest_tags_degrade_to_empty_asymmetric (some "quantum computing") envC9
    envC6 "payload" "not json" "tag call failed" suggX rfl (by decide) rfl rfl
    rfl (by decide) rfl).1

/-- C10: when the search provider succeeds with zero entries,
/api/generate-report does not stop: the analysis join over the empty paper
list yields the empty analysis set, the synthesis prompt embeds no papers
(it equals the fixed template with an empty papers block), and a report is
still synthesized and persisted, with a 200 response carrying papers = []. -/
theorem generate_report_zero_papers_proceeds (q S : String) (hq : q ≠ "")
    (hS : S ≠ "") (u : User) (hu : u.id ≠ "") (rec : StoredRecord)
    (env : ReportEnv) (harx : env.arxiv q = .ok [])
    (hsyn : env.synth (reportPrompt q []) = .ok (some S))
    (hins : env.insertReport ⟨u.id, q, S⟩ = .ok (some rec)) :
    generateReport (some q) (some u) env =
      (⟨200, .reportOk S [] rec⟩,
        [UpstreamCall.arxivSearch q,
         UpstreamCall.completion (reportPrompt q []),
         UpstreamCall.insertReport ⟨u.id, q, S⟩]) ∧
    reportPrompt q [] = reportTemplate q "" := by
  constructor
  · simp [generateReport, jsTruthy, jsShow, hq, harx, joinAnalyses, hsyn, hS,
      hu, hins]
  · rfl

/-- Instantiation of the C10 theorem: zero fetched papers, a report is still
synthesized and persisted, 200 with an empty papers list. -/
theorem generate_report_zero_papers_proceeds_witness :
    (generateReport (some "quantum computing") (some userU) envC10).1
      = ⟨200, .reportOk "SYNTH" [] ⟨9⟩⟩ :=
  congrArg Prod.fst (generate_report_zero_papers_proceeds "quantum computing"
    "SYNTH" (by decide) (by decide) userU (by decide) ⟨9⟩ envC10 rfl rfl
    rfl).1
